import Mathlib

/-!
Shallow embedding of `src/data_handling/data_io.py`: a strategy-registry
facade over tabular data I/O with two reference strategies (CSV over the
filesystem, SQL over a connection string).

Modelling conventions:
* A pandas `DataFrame` is modelled as `Table`: a header row of column names
  and a list of rows, each cell abstracted as a string.
* The filesystem is an association list of files (path to content) plus a
  list of existing directories.
* Python keyword-argument bags (`**kwargs`) are association lists from
  string keys to `Val` (strings or booleans, the only value shapes the
  claims exercise).
* Each strategy operation returns the updated system state, the list of
  observable events it performed (console prints, filesystem touches,
  database connection attempts), and an `Except` result mirroring Python
  exceptions.  The error taxonomy follows the specification
  (`UnknownFormat`, `SourceNotFound`, `MissingArgument`, `IOFailure`);
  in the Python source the first three are `ValueError` / `FileNotFoundError`
  and the last is `OSError`.
* Python object allocation (`cls._readers[tag]()` constructs a fresh
  strategy instance per lookup) is modelled with an allocation counter
  `nextId` in the system state; each constructed instance carries the id it
  was allocated.
-/

/-- Values carried in an options bag (Python keyword arguments). -/
inductive Val where
  | s (v : String)
  | b (v : Bool)
deriving DecidableEq

/-- Options bag: mapping from string keys to values, as `**kwargs`. -/
abbrev Options := List (String × Val)

/-- Python truthiness of `kwargs.get(key)`: `None` and falsy values
(empty string, `False`) fail the `if not query:` test. -/
def truthyOpt : Option Val → Bool
  | none => false
  | some (Val.s v) => !(v == "")
  | some (Val.b b) => b

/-- Render a value the way a Python f-string interpolates it. -/
def showVal : Val → String
  | Val.s v => v
  | Val.b b => if b then "True" else "False"

/-- A tabular data value: named columns and rows of cells (cells
abstracted as strings). -/
structure Table where
  header : List String
  rows : List (List String)
deriving DecidableEq

/-- Errors of the specification's taxonomy. -/
inductive Err where
  | unknownFormat (msg : String)
  | sourceNotFound (msg : String)
  | missingArgument (msg : String)
  | ioFailure (msg : String)
deriving DecidableEq

/-- Observable events performed by a strategy call. -/
inductive Event where
  | print (s : String)
  | fsReadEv (path : String)
  | mkdirEv (dir : String)
  | toCsvEv (target : String) (index : Val) (passthrough : Options)
  | connectEv (source : String)
  | execQueryEv (query : String)
deriving DecidableEq

/-- The filesystem: files as path-to-content pairs (most recent write
first) and the set of existing directories. -/
structure FS where
  files : List (String × String)
  dirs : List String
deriving DecidableEq

/-- System state threaded through every operation: the filesystem and the
allocation counter for fresh strategy instances. -/
structure Sys where
  fs : FS
  nextId : Nat
deriving DecidableEq

/-- Test whether a path exists (`os.path.exists`): either a directory or a
file with that exact path. -/
def pathExists (fs : FS) (p : String) : Bool :=
  fs.dirs.contains p || (fs.files.lookup p).isSome

/-- Wrap a string in single quotes as the Python f-strings of the source
do. -/
def quoted (s : String) : String := "\x27" ++ s ++ "\x27"

/-- Modelled from the spec: the external tabular library's delimited-text
serialization of one row (`pandas.DataFrame.to_csv`), for the default
options: cells joined by the separator character. Quoting rules are
delegated to the external collaborator and are out of scope, so cells are
assumed free of the separator and of newlines (the spec's valid,
losslessly round-tripping tables). -/
def encodeLine (cells : List String) : List Char :=
  [','].intercalate (cells.map String.data)

/-- Modelled from the spec: parsing one delimited-text line back into
cells (`pandas.read_csv`), default options. -/
def decodeLine (l : List Char) : List String :=
  (l.splitOn ',').map String.mk

/-- Modelled from the spec: full delimited-text serialization of a table
under default options — the header line followed by each row line, every
line terminated by a newline. (Interleaving newlines through
`lines ++ [[]]` produces exactly that text.) -/
def toCsvChars (t : Table) : List Char :=
  ['\n'].intercalate (((t.header :: t.rows).map encodeLine) ++ [[]])

/-- Delimited-text serialization as a string. -/
def toCsv (t : Table) : String := String.mk (toCsvChars t)

/-- Modelled from the spec: serialization when a positional row index IS
written (`index=True`): an extra unnamed index column of row numbers. -/
def toCsvIndexed (t : Table) : String :=
  String.mk (['\n'].intercalate
    ((encodeLine ("" :: t.header) ::
      (t.rows.enum.map fun p => encodeLine (toString p.1 :: p.2))) ++ [[]]))

/-- Modelled from the spec: parsing delimited-text content back into a
table under default options: split into lines, drop the trailing empty
line left by the final newline, first line is the header. -/
def fromCsvChars (cs : List Char) : Table :=
  let ls := cs.splitOn '\n'
  let ls := if ls.getLast? = some [] then ls.dropLast else ls
  match ls with
  | [] => ⟨[], []⟩
  | h :: rest => ⟨decodeLine h, rest.map decodeLine⟩

/-- Parse a CSV string into a table. -/
def fromCsv (s : String) : Table := fromCsvChars s.data

/-- A cell (or column name) that round-trips without quoting: free of the
separator and of newlines. -/
def cellOk (s : String) : Bool := !s.data.contains ',' && !s.data.contains '\n'

/-- Well-formed table: nonempty header, rectangular rows, and every cell
and column name free of separators and newlines (the spec's valid tables
for the lossless round-trip law). -/
def wfTable (t : Table) : Bool :=
  !(t.header == []) && t.header.all cellOk &&
    t.rows.all fun r => r.length == t.header.length && r.all cellOk

/-- Directory part of a path (`os.path.dirname`): everything before the
last separator, empty when the path has no separator. -/
def dirname (p : String) : String :=
  let parts := p.data.splitOn '/'
  if parts.length ≤ 1 then "" else String.mk (['/'].intercalate parts.dropLast)

/-- All ancestor directories created by a recursive directory creation
(`os.makedirs(d, exist_ok=True)`): every cumulative slash-joined path
from the first component up to the full directory. -/
def ancestors (d : String) : List String :=
  let parts := d.data.splitOn '/'
  (List.range parts.length).map fun i => String.mk (['/'].intercalate (parts.take (i + 1)))

/-- Reader strategy of `_CsvReader.read`: fail with `SourceNotFound` when
the path does not exist, otherwise print and read the file, wrapping any
underlying failure (here: the path exists only as a directory) into
`IOFailure`. -/
def csvRead (s : Sys) (source : String) (opts : Options) :
    Sys × List Event × Except Err Table :=
  if !pathExists s.fs source then
    (s, [], Except.error (Err.sourceNotFound
      ("The file " ++ quoted source ++ " does not exist.")))
  else
    match s.fs.files.lookup source with
    | some content =>
        (s, [Event.print ("Reading CSV from " ++ quoted source ++ "..."),
             Event.fsReadEv source],
         Except.ok (fromCsv content))
    | none =>
        (s, [Event.print ("Reading CSV from " ++ quoted source ++ "..."),
             Event.fsReadEv source],
         Except.error (Err.ioFailure
           ("Failed to read CSV from " ++ quoted source ++ ": not a regular file")))

/-- Writer strategy of `_CsvWriter.write`: create missing parent
directories recursively, default the `index` option to false, pop it from
the bag, and write the serialized table to the target path. -/
def csvWrite (s : Sys) (df : Table) (target : String) (opts : Options) :
    Sys × List Event × Except Err Unit :=
  let d := dirname target
  let needDir := !(d == "") && !pathExists s.fs d
  let dirs1 := if needDir then ancestors d ++ s.fs.dirs else s.fs.dirs
  let ev1 := if needDir then [Event.print ("Creating directory: " ++ d), Event.mkdirEv d]
             else []
  let indexV := (opts.lookup "index").getD (Val.b false)
  let rest := opts.filter fun kv => !(kv.1 == "index")
  let content := if truthyOpt (some indexV) then toCsvIndexed df else toCsv df
  (⟨⟨(target, content) :: s.fs.files, dirs1⟩, s.nextId⟩,
   ev1 ++ [Event.print ("Writing CSV to " ++ quoted target ++ "..."),
           Event.toCsvEv target indexV rest],
   Except.ok ())

/-- The fixed demonstration table returned by `_SqlReader.read` in place
of a real query execution (the `pd.read_sql` call is commented out in the
source). -/
def sqlMockTable : Table := ⟨["id", "name"], [["1", "Alice"], ["2", "Bob"]]⟩

/-- Reader strategy of `_SqlReader.read`: require a truthy `query` option
(`MissingArgument` otherwise, raised before anything else happens), then
print a diagnostic and return the hard-coded demonstration table; no
connection is opened and the query is never executed. -/
def sqlRead (s : Sys) (source : String) (opts : Options) :
    Sys × List Event × Except Err Table :=
  let query := opts.lookup "query"
  if !truthyOpt query then
    (s, [], Except.error (Err.missingArgument
      ("SQL read requires a " ++ quoted "query" ++ " argument.")))
  else
    (s, [Event.print ("Reading from SQL DB at " ++ quoted source ++
          " with query: " ++ showVal (query.getD (Val.s "")))],
     Except.ok sqlMockTable)

/-- Writer strategy of `_SqlWriter.write`: read the `if_exists` option
(default `fail`), print a diagnostic, and do nothing else (the `to_sql`
call is commented out in the source). -/
def sqlWrite (s : Sys) (df : Table) (target : String) (opts : Options) :
    Sys × List Event × Except Err Unit :=
  let ifExists := (opts.lookup "if_exists").getD (Val.s "fail")
  (s, [Event.print ("Writing to SQL table " ++ quoted target ++
        " (if_exists=" ++ showVal ifExists ++ ")...")],
   Except.ok ())

/-- The reader strategy classes registered in the source. -/
inductive RKind where
  | csvR
  | sqlR
deriving DecidableEq

/-- The writer strategy classes registered in the source. -/
inductive WKind where
  | csvW
  | sqlW
deriving DecidableEq

/-- The two independent registries of `_IOFactory`: format tag to reader
class and format tag to writer class. -/
structure Registry where
  readers : List (String × RKind)
  writers : List (String × WKind)
deriving DecidableEq

/-- Install (or overwrite) the reader mapping for a tag
(`_IOFactory.register_reader`): a dictionary assignment, so a later entry
for the same tag shadows any earlier one on lookup. -/
def registerReader (reg : Registry) (tag : String) (k : RKind) : Registry :=
  ⟨(tag, k) :: reg.readers, reg.writers⟩

/-- Install (or overwrite) the writer mapping for a tag
(`_IOFactory.register_writer`). -/
def registerWriter (reg : Registry) (tag : String) (k : WKind) : Registry :=
  ⟨reg.readers, (tag, k) :: reg.writers⟩

/-- A constructed reader strategy instance: its allocation identity and
its class.  The strategy classes of the source have no instance fields,
so an instance carries no state beyond its class. -/
structure ReaderInstance where
  id : Nat
  kind : RKind
deriving DecidableEq

/-- A constructed writer strategy instance. -/
structure WriterInstance where
  id : Nat
  kind : WKind
deriving DecidableEq

/-- Resolve a tag to a freshly constructed reader instance
(`_IOFactory.get_reader`); a lookup miss fails with `UnknownFormat`
naming the tag. -/
def getReader (reg : Registry) (s : Sys) (tag : String) :
    Sys × Except Err ReaderInstance :=
  match reg.readers.lookup tag with
  | some k => (⟨s.fs, s.nextId + 1⟩, Except.ok ⟨s.nextId, k⟩)
  | none => (s, Except.error (Err.unknownFormat
      ("No reader registered for format: " ++ quoted tag)))

/-- Resolve a tag to a freshly constructed writer instance
(`_IOFactory.get_writer`). -/
def getWriter (reg : Registry) (s : Sys) (tag : String) :
    Sys × Except Err WriterInstance :=
  match reg.writers.lookup tag with
  | some k => (⟨s.fs, s.nextId + 1⟩, Except.ok ⟨s.nextId, k⟩)
  | none => (s, Except.error (Err.unknownFormat
      ("No writer registered for format: " ++ quoted tag)))

/-- Dispatch a read call to the strategy class of an instance. -/
def runRead : RKind → Sys → String → Options → Sys × List Event × Except Err Table
  | RKind.csvR => csvRead
  | RKind.sqlR => sqlRead

/-- Dispatch a write call to the strategy class of an instance. -/
def runWrite : WKind → Sys → Table → String → Options → Sys × List Event × Except Err Unit
  | WKind.csvW => csvWrite
  | WKind.sqlW => sqlWrite

/-- The registry as populated by the decorators at module import, in
source order: sql reader, sql writer, csv reader, csv writer. -/
def defaultRegistry : Registry :=
  registerWriter
    (registerReader
      (registerWriter (registerReader ⟨[], []⟩ "sql" RKind.sqlR) "sql" WKind.sqlW)
      "csv" RKind.csvR)
    "csv" WKind.csvW

/-- Facade `load_data`: resolve the reader for the format tag and
delegate, propagating any error unchanged. -/
def loadData (reg : Registry) (s : Sys) (source fmt : String) (opts : Options) :
    Sys × List Event × Except Err Table :=
  match getReader reg s fmt with
  | (s1, Except.ok inst) => runRead inst.kind s1 source opts
  | (s1, Except.error e) => (s1, [], Except.error e)

/-- Facade `save_data`: resolve the writer for the format tag and
delegate, propagating any error unchanged. -/
def saveData (reg : Registry) (s : Sys) (df : Table) (target fmt : String)
    (opts : Options) : Sys × List Event × Except Err Unit :=
  match getWriter reg s fmt with
  | (s1, Except.ok inst) => runWrite inst.kind s1 df target opts
  | (s1, Except.error e) => (s1, [], Except.error e)

/-! ### Round-trip of the delimited-text codec -/

theorem intercalate_cons_cons (c : Char) (l₁ l₂ : List Char) (ls : List (List Char)) :
    [c].intercalate (l₁ :: l₂ :: ls) = l₁ ++ c :: [c].intercalate (l₂ :: ls) := by
  simp [List.intercalate, List.intersperse_cons_cons]

theorem mem_intercalate_single {x c : Char} {ls : List (List Char)}
    (h : x ∈ [c].intercalate ls) : x = c ∨ ∃ l ∈ ls, x ∈ l := by
  induction ls with
  | nil => simp [List.intercalate] at h
  | cons hd tl ih =>
    cases tl with
    | nil =>
      right
      refine ⟨hd, List.mem_cons_self _ _, ?_⟩
      simpa [List.intercalate] using h
    | cons hd2 tl2 =>
      rw [intercalate_cons_cons] at h
      rcases List.mem_append.mp h with h1 | h2
      · exact Or.inr ⟨hd, List.mem_cons_self _ _, h1⟩
      · rcases List.mem_cons.mp h2 with rfl | h3
        · exact Or.inl rfl
        · rcases ih h3 with h4 | ⟨l, hl, hxl⟩
          · exact Or.inl h4
          · exact Or.inr ⟨l, List.mem_cons_of_mem _ hl, hxl⟩

theorem cellOk_spec {s : String} (h : cellOk s = true) :
    ',' ∉ s.data ∧ '\n' ∉ s.data := by
  simp only [cellOk, Bool.and_eq_true, Bool.not_eq_true'] at h
  exact ⟨by simpa using h.1, by simpa using h.2⟩

theorem not_mem_encodeLine {x : Char} {cells : List String} (hx : x ≠ ',')
    (hok : ∀ s ∈ cells, x ∉ s.data) : x ∉ encodeLine cells := by
  intro hmem
  rcases mem_intercalate_single hmem with h1 | ⟨l, hl, hxl⟩
  · exact hx h1
  · rcases List.mem_map.mp hl with ⟨s, hs, rfl⟩
    exact hok s hs hxl

theorem decodeLine_encodeLine {cells : List String} (hne : cells ≠ [])
    (hok : ∀ s ∈ cells, cellOk s = true) : decodeLine (encodeLine cells) = cells := by
  unfold decodeLine encodeLine
  rw [List.splitOn_intercalate]
  · rw [List.map_map]
    have h : (String.mk ∘ String.data) = id := funext fun s => rfl
    rw [h, List.map_id]
  · intro l hl
    rcases List.mem_map.mp hl with ⟨s, hs, rfl⟩
    exact (cellOk_spec (hok s hs)).1
  · simpa using hne

theorem fromCsv_toCsv {t : Table} (h : wfTable t = true) : fromCsv (toCsv t) = t := by
  simp only [wfTable, Bool.and_eq_true, Bool.not_eq_true', beq_eq_false_iff_ne, ne_eq,
    List.all_eq_true, beq_iff_eq] at h
  obtain ⟨⟨hne, hhead⟩, hrows⟩ := h
  have hlineOk : ∀ l ∈ (t.header :: t.rows).map encodeLine ++ [[]], '\n' ∉ l := by
    intro l hl
    rcases List.mem_append.mp hl with h1 | h2
    · rcases List.mem_map.mp h1 with ⟨cells, hc, rfl⟩
      rcases List.mem_cons.mp hc with rfl | hc2
      · exact not_mem_encodeLine (by decide) fun s hs => (cellOk_spec (hhead s hs)).2
      · exact not_mem_encodeLine (by decide) fun s hs =>
          (cellOk_spec ((hrows _ hc2).2 s hs)).2
    · simp at h2
      subst h2
      simp
  have hsplit : (toCsvChars t).splitOn '\n' = (t.header :: t.rows).map encodeLine ++ [[]] :=
    List.splitOn_intercalate ((t.header :: t.rows).map encodeLine ++ [[]]) '\n' hlineOk
      (by simp)
  show fromCsvChars (toCsvChars t) = t
  rw [fromCsvChars, hsplit]
  simp only [List.getLast?_concat, List.dropLast_concat, eq_self_iff_true, if_true,
    List.map_cons]
  have hheadLine : decodeLine (encodeLine t.header) = t.header :=
    decodeLine_encodeLine hne hhead
  have hrowLines : (t.rows.map encodeLine).map decodeLine = t.rows := by
    rw [List.map_map]
    have : ∀ r ∈ t.rows, (decodeLine ∘ encodeLine) r = id r := by
      intro r hr
      have hlen := (hrows r hr).1
      have : r ≠ [] := by
        intro hnil
        subst hnil
        exact hne (List.eq_nil_of_length_eq_zero (hrows [] hr).1.symm)
      exact decodeLine_encodeLine this (hrows r hr).2
    rw [List.map_congr_left this, List.map_id]
  rw [hheadLine, hrowLines]

/-! ### Claim theorems -/

/-- Claim C2: for every source string and every options bag whose `query`
option is absent or empty (Python-falsy), the SQL read fails with
`MissingArgument`, the system state is unchanged and the event trace is
empty — in particular no connection attempt (`Event.connectEv`) occurs
before the failure. -/
theorem sqlRead_missing_query_fails_early (s : Sys) (source : String) (opts : Options)
    (h : truthyOpt (opts.lookup "query") = false) :
    sqlRead s source opts =
      (s, [], Except.error (Err.missingArgument
        ("SQL read requires a " ++ quoted "query" ++ " argument."))) := by
  simp [sqlRead, h]

/-- Witness for C2 at a concrete input: the options bag lacking `query`
and the bag with an empty `query` both fail with `MissingArgument` and an
empty trace. -/
theorem sqlRead_missing_query_fails_early_witness :
    truthyOpt (([] : Options).lookup "query") = false ∧
    truthyOpt (([("query", Val.s "")] : Options).lookup "query") = false ∧
    sqlRead ⟨⟨[], []⟩, 0⟩ "postgres://fake-db" [] =
      (⟨⟨[], []⟩, 0⟩, [], Except.error (Err.missingArgument
        ("SQL read requires a " ++ quoted "query" ++ " argument."))) ∧
    sqlRead ⟨⟨[], []⟩, 0⟩ "postgres://fake-db" [("query", Val.s "")] =
      (⟨⟨[], []⟩, 0⟩, [], Except.error (Err.missingArgument
        ("SQL read requires a " ++ quoted "query" ++ " argument."))) :=
  ⟨rfl, rfl,
   sqlRead_missing_query_fails_early ⟨⟨[], []⟩, 0⟩ "postgres://fake-db" [] rfl,
   sqlRead_missing_query_fails_early ⟨⟨[], []⟩, 0⟩ "postgres://fake-db"
     [("query", Val.s "")] rfl⟩

/-- Claim C3: for every path that does not exist on the filesystem and
every options bag, the CSV read fails with `SourceNotFound`, the state is
unchanged and the event trace is empty — the failure precedes any read of
the file (`Event.fsReadEv`) and no partial data is returned. -/
theorem csvRead_missing_source_fails_early (s : Sys) (source : String) (opts : Options)
    (h : pathExists s.fs source = false) :
    csvRead s source opts =
      (s, [], Except.error (Err.sourceNotFound
        ("The file " ++ quoted source ++ " does not exist."))) := by
  simp [csvRead, h]

/-- Witness for C3 at a concrete input: reading a ghost file from the
empty filesystem fails with `SourceNotFound` and an empty trace. -/
theorem csvRead_missing_source_fails_early_witness :
    pathExists (⟨[], []⟩ : FS) "non_existent_ghost_file.csv" = false ∧
    csvRead ⟨⟨[], []⟩, 0⟩ "non_existent_ghost_file.csv" [] =
      (⟨⟨[], []⟩, 0⟩, [], Except.error (Err.sourceNotFound
        ("The file " ++ quoted "non_existent_ghost_file.csv" ++ " does not exist."))) :=
  ⟨rfl, csvRead_missing_source_fails_early ⟨⟨[], []⟩, 0⟩ "non_existent_ghost_file.csv" [] rfl⟩

/-- Claim C10: for every system state, table, target name and options bag,
the SQL write returns successfully, leaves the system state unchanged, and
its only observable action is a single diagnostic console print. -/
theorem sqlWrite_performs_no_write (s : Sys) (df : Table) (target : String)
    (opts : Options) :
    sqlWrite s df target opts =
      (s, [Event.print ("Writing to SQL table " ++ quoted target ++ " (if_exists=" ++
        showVal ((opts.lookup "if_exists").getD (Val.s "fail")) ++ ")...")],
       Except.ok ()) := rfl

/-- Claim C6, evaluated at the failing input: with a non-empty `query`
option the SQL read does not connect and does not execute the query — two
different queries against the same source both return the hard-coded
demonstration table, and the trace holds a single console print (no
`Event.connectEv`, no `Event.execQueryEv`). -/
theorem sqlRead_mock_ignores_query :
    sqlRead ⟨⟨[], []⟩, 0⟩ "postgres://fake-db" [("query", Val.s "SELECT name FROM users")] =
      (⟨⟨[], []⟩, 0⟩,
       [Event.print ("Reading from SQL DB at " ++ quoted "postgres://fake-db" ++
         " with query: SELECT name FROM users")],
       Except.ok sqlMockTable) ∧
    sqlRead ⟨⟨[], []⟩, 0⟩ "postgres://fake-db" [("query", Val.s "SELECT id FROM roles")] =
      (⟨⟨[], []⟩, 0⟩,
       [Event.print ("Reading from SQL DB at " ++ quoted "postgres://fake-db" ++
         " with query: SELECT id FROM roles")],
       Except.ok sqlMockTable) ∧
    sqlMockTable = ⟨["id", "name"], [["1", "Alice"], ["2", "Bob"]]⟩ :=
  ⟨rfl, rfl, rfl⟩

/-- Claim C4: for every format tag with no registered reader — whether or
not a writer is registered for it — `get_reader` fails with
`UnknownFormat`, the message contains the unresolved tag, and `load_data`
with that tag fails the same way; and, independently and symmetrically,
for every tag with no registered writer, `get_writer` and `save_data`
fail with `UnknownFormat` naming the tag. -/
theorem get_unknown_format_fails_naming_tag (reg : Registry) (s : Sys) (tag : String) :
    (reg.readers.lookup tag = none →
      getReader reg s tag = (s, Except.error (Err.unknownFormat
        ("No reader registered for format: " ++ quoted tag))) ∧
      (∃ pre post, "No reader registered for format: " ++ quoted tag =
        pre ++ tag ++ post) ∧
      ∀ source opts, loadData reg s source tag opts =
        (s, [], Except.error (Err.unknownFormat
          ("No reader registered for format: " ++ quoted tag)))) ∧
    (reg.writers.lookup tag = none →
      getWriter reg s tag = (s, Except.error (Err.unknownFormat
        ("No writer registered for format: " ++ quoted tag))) ∧
      (∃ pre post, "No writer registered for format: " ++ quoted tag =
        pre ++ tag ++ post) ∧
      ∀ df target opts, saveData reg s df target tag opts =
        (s, [], Except.error (Err.unknownFormat
          ("No writer registered for format: " ++ quoted tag)))) := by
  constructor
  · intro hr
    refine ⟨by simp [getReader, hr],
      ⟨"No reader registered for format: \x27", "\x27", rfl⟩, ?_⟩
    intro source opts
    simp [loadData, getReader, hr]
  · intro hw
    refine ⟨by simp [getWriter, hw],
      ⟨"No writer registered for format: \x27", "\x27", rfl⟩, ?_⟩
    intro df target opts
    simp [saveData, getWriter, hw]

/-- Witness for C4 at concrete inputs exercising the two halves
independently: on a registry where `json` has only a writer, `get_reader`
fails with `UnknownFormat` naming `json`; on a registry where `json` has
only a reader, `get_writer` fails likewise. -/
theorem get_unknown_format_fails_naming_tag_witness :
    (registerWriter ⟨[], []⟩ "json" WKind.csvW).readers.lookup "json" = none ∧
    getReader (registerWriter ⟨[], []⟩ "json" WKind.csvW) ⟨⟨[], []⟩, 0⟩ "json" =
      (⟨⟨[], []⟩, 0⟩, Except.error (Err.unknownFormat
        ("No reader registered for format: " ++ quoted "json"))) ∧
    (registerReader ⟨[], []⟩ "json" RKind.csvR).writers.lookup "json" = none ∧
    getWriter (registerReader ⟨[], []⟩ "json" RKind.csvR) ⟨⟨[], []⟩, 0⟩ "json" =
      (⟨⟨[], []⟩, 0⟩, Except.error (Err.unknownFormat
        ("No writer registered for format: " ++ quoted "json"))) :=
  ⟨by decide,
   ((get_unknown_format_fails_naming_tag (registerWriter ⟨[], []⟩ "json" WKind.csvW)
      ⟨⟨[], []⟩, 0⟩ "json").1 (by decide)).1,
   by decide,
   ((get_unknown_format_fails_naming_tag (registerReader ⟨[], []⟩ "json" RKind.csvR)
      ⟨⟨[], []⟩, 0⟩ "json").2 (by decide)).1⟩

/-- Claim C5: re-registering an already registered tag succeeds (the
registration operations are total) and replaces the prior strategy — a
subsequent lookup returns an instance of the newly registered class, never
the old one — while lookups of any other tag are unaffected, for both the
reader and the writer registry. -/
theorem register_overwrite_last_wins (reg : Registry) (tag tag2 : String)
    (k1 k2 : RKind) (w1 w2 : WKind) (s : Sys) :
    getReader (registerReader (registerReader reg tag k1) tag k2) s tag =
      (⟨s.fs, s.nextId + 1⟩, Except.ok ⟨s.nextId, k2⟩) ∧
    getWriter (registerWriter (registerWriter reg tag w1) tag w2) s tag =
      (⟨s.fs, s.nextId + 1⟩, Except.ok ⟨s.nextId, w2⟩) ∧
    (tag2 ≠ tag →
      getReader (registerReader reg tag k1) s tag2 = getReader reg s tag2) ∧
    (tag2 ≠ tag →
      getWriter (registerWriter reg tag w1) s tag2 = getWriter reg s tag2) := by
  refine ⟨by simp [getReader, registerReader, List.lookup],
    by simp [getWriter, registerWriter, List.lookup], ?_, ?_⟩
  · intro h
    simp [getReader, registerReader, List.lookup, beq_eq_false_iff_ne.mpr h]
  · intro h
    simp [getWriter, registerWriter, List.lookup, beq_eq_false_iff_ne.mpr h]

/-- Witness for C5 at a concrete input: on the default registry,
re-registering `csv` with the SQL reader class then again with the CSV
reader class makes the lookup return the latest class, and the lookup of
the untouched tag `sql` is unaffected. -/
theorem register_overwrite_last_wins_witness :
    getReader (registerReader (registerReader defaultRegistry "csv" RKind.sqlR)
        "csv" RKind.csvR) ⟨⟨[], []⟩, 7⟩ "csv" =
      (⟨⟨[], []⟩, 8⟩, Except.ok ⟨7, RKind.csvR⟩) ∧
    getWriter (registerWriter (registerWriter defaultRegistry "csv" WKind.sqlW)
        "csv" WKind.csvW) ⟨⟨[], []⟩, 7⟩ "csv" =
      (⟨⟨[], []⟩, 8⟩, Except.ok ⟨7, WKind.csvW⟩) ∧
    getReader (registerReader defaultRegistry "csv" RKind.sqlR) ⟨⟨[], []⟩, 7⟩ "sql" =
      getReader defaultRegistry ⟨⟨[], []⟩, 7⟩ "sql" ∧
    getWriter (registerWriter defaultRegistry "csv" WKind.sqlW) ⟨⟨[], []⟩, 7⟩ "sql" =
      getWriter defaultRegistry ⟨⟨[], []⟩, 7⟩ "sql" :=
  ⟨(register_overwrite_last_wins defaultRegistry "csv" "sql" RKind.sqlR RKind.csvR
      WKind.sqlW WKind.csvW ⟨⟨[], []⟩, 7⟩).1,
   (register_overwrite_last_wins defaultRegistry "csv" "sql" RKind.sqlR RKind.csvR
      WKind.sqlW WKind.csvW ⟨⟨[], []⟩, 7⟩).2.1,
   (register_overwrite_last_wins defaultRegistry "csv" "sql" RKind.sqlR RKind.csvR
      WKind.sqlW WKind.csvW ⟨⟨[], []⟩, 7⟩).2.2.1 (by decide),
   (register_overwrite_last_wins defaultRegistry "csv" "sql" RKind.sqlR RKind.csvR
      WKind.sqlW WKind.csvW ⟨⟨[], []⟩, 7⟩).2.2.2 (by decide)⟩

/-- Claim C9: for every tag with a registered reader — independently, for
every tag with a registered writer — each lookup constructs a fresh
strategy instance: two successive lookups of the same tag return instances
with distinct allocation identities, both of the registered class, and —
the classes being stateless — with identical dispatch behavior; the
registry itself is untouched by lookups. -/
theorem get_fresh_instance_per_call (reg : Registry) (s : Sys) (tag : String) :
    (∀ k, reg.readers.lookup tag = some k →
      getReader reg s tag = (⟨s.fs, s.nextId + 1⟩, Except.ok ⟨s.nextId, k⟩) ∧
      getReader reg ⟨s.fs, s.nextId + 1⟩ tag =
        (⟨s.fs, s.nextId + 2⟩, Except.ok ⟨s.nextId + 1, k⟩) ∧
      (⟨s.nextId, k⟩ : ReaderInstance) ≠ ⟨s.nextId + 1, k⟩ ∧
      runRead (⟨s.nextId, k⟩ : ReaderInstance).kind =
        runRead (⟨s.nextId + 1, k⟩ : ReaderInstance).kind) ∧
    (∀ kw, reg.writers.lookup tag = some kw →
      getWriter reg s tag = (⟨s.fs, s.nextId + 1⟩, Except.ok ⟨s.nextId, kw⟩) ∧
      getWriter reg ⟨s.fs, s.nextId + 1⟩ tag =
        (⟨s.fs, s.nextId + 2⟩, Except.ok ⟨s.nextId + 1, kw⟩) ∧
      (⟨s.nextId, kw⟩ : WriterInstance) ≠ ⟨s.nextId + 1, kw⟩ ∧
      runWrite (⟨s.nextId, kw⟩ : WriterInstance).kind =
        runWrite (⟨s.nextId + 1, kw⟩ : WriterInstance).kind) := by
  constructor
  · intro k hr
    refine ⟨by simp [getReader, hr], by simp [getReader, hr], ?_, rfl⟩
    intro hcontra
    exact Nat.succ_ne_self s.nextId (congrArg ReaderInstance.id hcontra).symm
  · intro kw hw
    refine ⟨by simp [getWriter, hw], by simp [getWriter, hw], ?_, rfl⟩
    intro hcontra
    exact Nat.succ_ne_self s.nextId (congrArg WriterInstance.id hcontra).symm

/-- Witness for C9 at concrete inputs exercising the two halves
independently: on a registry where `json` has only a reader, two
successive reader lookups yield distinct instances 0 and 1 of the
registered class; on a registry where `json` has only a writer, the
writer lookup likewise yields a fresh instance. -/
theorem get_fresh_instance_per_call_witness :
    (registerReader ⟨[], []⟩ "json" RKind.csvR).readers.lookup "json" =
      some RKind.csvR ∧
    getReader (registerReader ⟨[], []⟩ "json" RKind.csvR) ⟨⟨[], []⟩, 0⟩ "json" =
      (⟨⟨[], []⟩, 1⟩, Except.ok ⟨0, RKind.csvR⟩) ∧
    getReader (registerReader ⟨[], []⟩ "json" RKind.csvR) ⟨⟨[], []⟩, 1⟩ "json" =
      (⟨⟨[], []⟩, 2⟩, Except.ok ⟨1, RKind.csvR⟩) ∧
    (⟨0, RKind.csvR⟩ : ReaderInstance) ≠ ⟨1, RKind.csvR⟩ ∧
    (registerWriter ⟨[], []⟩ "json" WKind.sqlW).writers.lookup "json" =
      some WKind.sqlW ∧
    getWriter (registerWriter ⟨[], []⟩ "json" WKind.sqlW) ⟨⟨[], []⟩, 0⟩ "json" =
      (⟨⟨[], []⟩, 1⟩, Except.ok ⟨0, WKind.sqlW⟩) ∧
    (⟨0, WKind.sqlW⟩ : WriterInstance) ≠ ⟨1, WKind.sqlW⟩ :=
  ⟨by decide,
   ((get_fresh_instance_per_call (registerReader ⟨[], []⟩ "json" RKind.csvR)
      ⟨⟨[], []⟩, 0⟩ "json").1 RKind.csvR (by decide)).1,
   ((get_fresh_instance_per_call (registerReader ⟨[], []⟩ "json" RKind.csvR)
      ⟨⟨[], []⟩, 0⟩ "json").1 RKind.csvR (by decide)).2.1,
   ((get_fresh_instance_per_call (registerReader ⟨[], []⟩ "json" RKind.csvR)
      ⟨⟨[], []⟩, 0⟩ "json").1 RKind.csvR (by decide)).2.2.1,
   by decide,
   ((get_fresh_instance_per_call (registerWriter ⟨[], []⟩ "json" WKind.sqlW)
      ⟨⟨[], []⟩, 0⟩ "json").2 WKind.sqlW (by decide)).1,
   ((get_fresh_instance_per_call (registerWriter ⟨[], []⟩ "json" WKind.sqlW)
      ⟨⟨[], []⟩, 0⟩ "json").2 WKind.sqlW (by decide)).2.2.1⟩

/-- Every directory is among its own ancestors: rejoining all components
of the split path gives the path back. -/
theorem self_mem_ancestors (d : String) : d ∈ ancestors d := by
  unfold ancestors
  have hne : d.data.splitOn '/' ≠ [] := by
    simp [List.splitOn]
    exact List.splitOnP_ne_nil _ _
  refine List.mem_map.mpr ⟨(d.data.splitOn '/').length - 1, ?_, ?_⟩
  · exact List.mem_range.mpr (Nat.sub_lt (List.length_pos.mpr hne) Nat.one_pos)
  · rw [Nat.sub_add_cancel (Nat.one_le_iff_ne_zero.mpr
      (fun h0 => hne (List.length_eq_zero.mp h0)))]
    rw [List.take_length _, List.intercalate_splitOn]

/-- Claim C7: for every table and every target path whose parent directory
does not yet exist, the CSV write succeeds, creates every missing ancestor
of the parent directory, after which the parent exists; writing again to
the same path also succeeds without error. -/
theorem csvWrite_creates_parent_dirs (s : Sys) (df : Table) (target : String)
    (opts : Options) (hd : dirname target ≠ "")
    (hex : pathExists s.fs (dirname target) = false) :
    (csvWrite s df target opts).2.2 = Except.ok () ∧
    (∀ a ∈ ancestors (dirname target), a ∈ (csvWrite s df target opts).1.fs.dirs) ∧
    pathExists (csvWrite s df target opts).1.fs (dirname target) = true ∧
    (csvWrite (csvWrite s df target opts).1 df target opts).2.2 = Except.ok () := by
  have hneed : (!(dirname target == "") && !pathExists s.fs (dirname target)) = true := by
    simp [hex, beq_eq_false_iff_ne.mpr hd]
  have hdirs : (csvWrite s df target opts).1.fs.dirs =
      ancestors (dirname target) ++ s.fs.dirs := by
    simp [csvWrite, hneed]
  have hmem : dirname target ∈ (csvWrite s df target opts).1.fs.dirs := by
    rw [hdirs]
    exact List.mem_append_left _ (self_mem_ancestors _)
  refine ⟨rfl, ?_, ?_, rfl⟩
  · intro a ha
    rw [hdirs]
    exact List.mem_append_left _ ha
  · simp [pathExists]
    exact Or.inl hmem

/-- Witness for C7 at a concrete input: writing into the missing nested
directory `deep/nested` of the empty filesystem succeeds, creates `deep`
and `deep/nested`, and a second write to the same path succeeds. -/
theorem csvWrite_creates_parent_dirs_witness :
    dirname "deep/nested/data.csv" ≠ "" ∧
    pathExists (⟨[], []⟩ : FS) (dirname "deep/nested/data.csv") = false ∧
    (csvWrite ⟨⟨[], []⟩, 0⟩ ⟨["a"], [["1"]]⟩ "deep/nested/data.csv" []).2.2 =
      Except.ok () ∧
    pathExists (csvWrite ⟨⟨[], []⟩, 0⟩ ⟨["a"], [["1"]]⟩ "deep/nested/data.csv" []).1.fs
      (dirname "deep/nested/data.csv") = true ∧
    (csvWrite (csvWrite ⟨⟨[], []⟩, 0⟩ ⟨["a"], [["1"]]⟩ "deep/nested/data.csv" []).1
      ⟨["a"], [["1"]]⟩ "deep/nested/data.csv" []).2.2 = Except.ok () :=
  ⟨by decide, by decide,
   (csvWrite_creates_parent_dirs ⟨⟨[], []⟩, 0⟩ ⟨["a"], [["1"]]⟩ "deep/nested/data.csv" []
     (by decide) (by decide)).1,
   (csvWrite_creates_parent_dirs ⟨⟨[], []⟩, 0⟩ ⟨["a"], [["1"]]⟩ "deep/nested/data.csv" []
     (by decide) (by decide)).2.2.1,
   (csvWrite_creates_parent_dirs ⟨⟨[], []⟩, 0⟩ ⟨["a"], [["1"]]⟩ "deep/nested/data.csv" []
     (by decide) (by decide)).2.2.2⟩

/-- Claim C8: for every CSV write, when the caller's options bag has no
`index` key the underlying export is invoked with index set to false, and
when the caller supplies `index` the caller's value is passed instead; in
both cases the `index` key itself is removed from the options passed
through. -/
theorem csvWrite_index_default_false (s : Sys) (df : Table) (target : String)
    (opts : Options) :
    (opts.lookup "index" = none →
      Event.toCsvEv target (Val.b false) (opts.filter fun kv => !(kv.1 == "index")) ∈
        (csvWrite s df target opts).2.1) ∧
    (∀ v, opts.lookup "index" = some v →
      Event.toCsvEv target v (opts.filter fun kv => !(kv.1 == "index")) ∈
        (csvWrite s df target opts).2.1) := by
  constructor
  · intro h
    simp [csvWrite, h]
  · intro v h
    simp [csvWrite, h]

/-- Witness for C8 at concrete inputs: with an empty options bag the
export event carries index false; with `index` set to true it carries the
caller's value, and the key is popped from the passthrough bag. -/
theorem csvWrite_index_default_false_witness :
    ([] : Options).lookup "index" = none ∧
    Event.toCsvEv "out.csv" (Val.b false) [] ∈
      (csvWrite ⟨⟨[], []⟩, 0⟩ ⟨["a"], [["1"]]⟩ "out.csv" []).2.1 ∧
    ([("index", Val.b true)] : Options).lookup "index" = some (Val.b true) ∧
    Event.toCsvEv "out.csv" (Val.b true) [] ∈
      (csvWrite ⟨⟨[], []⟩, 0⟩ ⟨["a"], [["1"]]⟩ "out.csv" [("index", Val.b true)]).2.1 :=
  ⟨rfl,
   (csvWrite_index_default_false ⟨⟨[], []⟩, 0⟩ ⟨["a"], [["1"]]⟩ "out.csv" []).1 rfl,
   rfl,
   (csvWrite_index_default_false ⟨⟨[], []⟩, 0⟩ ⟨["a"], [["1"]]⟩ "out.csv"
     [("index", Val.b true)]).2 (Val.b true) rfl⟩

/-- Claim C1: for every well-formed table (the spec's valid tables: no
separator or newline inside a cell) and every path, saving via the facade
with format tag `csv` under default options and then loading the same path
with tag `csv` succeeds and returns a table equal in shape and content to
the original. -/
theorem save_then_load_csv_roundtrip (s : Sys) (df : Table) (path : String)
    (h : wfTable df = true) :
    (saveData defaultRegistry s df path "csv" []).2.2 = Except.ok () ∧
    (loadData defaultRegistry (saveData defaultRegistry s df path "csv" []).1
        path "csv" []).2.2 = Except.ok df := by
  refine ⟨rfl, ?_⟩
  have hfiles : (saveData defaultRegistry s df path "csv" []).1.fs.files =
      (path, toCsv df) :: s.fs.files := rfl
  have hlookup : (saveData defaultRegistry s df path "csv" []).1.fs.files.lookup path =
      some (toCsv df) := by
    rw [hfiles]
    simp [List.lookup]
  have hpe : pathExists (saveData defaultRegistry s df path "csv" []).1.fs path = true := by
    simp [pathExists, hlookup]
  have hload : loadData defaultRegistry (saveData defaultRegistry s df path "csv" []).1
      path "csv" [] =
      csvRead ⟨(saveData defaultRegistry s df path "csv" []).1.fs,
        (saveData defaultRegistry s df path "csv" []).1.nextId + 1⟩ path [] := rfl
  rw [hload]
  simp [csvRead, hpe, hlookup]
  exact fromCsv_toCsv h

/-- Witness for C1 at a concrete input: the demonstration table of the
source round-trips through `save_data` / `load_data` with tag `csv`. -/
theorem save_then_load_csv_roundtrip_witness :
    wfTable ⟨["id", "name", "role"],
      [["101", "Neo", "The One"], ["102", "Trinity", "Hacker"]]⟩ = true ∧
    (saveData defaultRegistry ⟨⟨[], []⟩, 0⟩
      ⟨["id", "name", "role"], [["101", "Neo", "The One"], ["102", "Trinity", "Hacker"]]⟩
      "output_folder/processed_data.csv" "csv" []).2.2 = Except.ok () ∧
    (loadData defaultRegistry
      (saveData defaultRegistry ⟨⟨[], []⟩, 0⟩
        ⟨["id", "name", "role"], [["101", "Neo", "The One"], ["102", "Trinity", "Hacker"]]⟩
        "output_folder/processed_data.csv" "csv" []).1
      "output_folder/processed_data.csv" "csv" []).2.2 =
      Except.ok ⟨["id", "name", "role"],
        [["101", "Neo", "The One"], ["102", "Trinity", "Hacker"]]⟩ :=
  ⟨by decide,
   (save_then_load_csv_roundtrip ⟨⟨[], []⟩, 0⟩
     ⟨["id", "name", "role"], [["101", "Neo", "The One"], ["102", "Trinity", "Hacker"]]⟩
     "output_folder/processed_data.csv" (by decide)).1,
   (save_then_load_csv_roundtrip ⟨⟨[], []⟩, 0⟩
     ⟨["id", "name", "role"], [["101", "Neo", "The One"], ["102", "Trinity", "Hacker"]]⟩
     "output_folder/processed_data.csv" (by decide)).2⟩
